import Mathlib

/-!
Verification development for the BlaBlaBlaGPT prompt-refinement backend.

The definitions below are a shallow embedding of the TypeScript source:

* data model: `shared/types.ts` (`Question`, `Answer`, `RefinementSession`);
* parsing: `backend/src/providers/base.ts` (`parseQuestionsFromResponse`),
  the Groq provider (`parseGroqResponse`, `tryFallbackParsing`);
* adapters: `OpenAIProvider.generateQuestions`,
  `AnthropicProvider.generateQuestions` / `buildRefinementConversation`,
  `GroqProvider.generateQuestions`, and the shared
  `formatQuestionsForPrompt`;
* orchestration: `PromptRefinementService.createSession` / `answerQuestion`;
* storage: `InMemorySessionStorage` (`createNewSession`, `getSession`,
  `updateSession`, `deleteSession`);
* registry: `LLMProviderFactory.initializeProviders` together with the
  `config.llmProviders` construction from environment variables.

Vendor network calls are modelled by passing the call's outcome (HTTP
failure, missing content, or the parsed body) as an explicit argument;
`uuidv4` / `generateQuestionId` fresh-id generation is modelled by an
explicit id supply; `Date.now()` by a millisecond clock argument.
-/

/-- Session lifecycle status (`shared/types.ts`: `'draft' | 'refining' | 'completed'`). -/
inductive SessionStatus
  | draft
  | refining
  | completed
deriving DecidableEq

/-- An answer's `response` field: `boolean | string` in `shared/types.ts`. -/
inductive AnswerResponse
  | bool (b : Bool)
  | str (s : String)
deriving DecidableEq

/-- The `Question` from `shared/types.ts`. -/
structure Question where
  id : String
  text : String
  order : Nat
  category : String
  impact : String
  explanation : Option String
  options : List String
  defaultOption : Int
deriving DecidableEq

/-- The `Answer` from `shared/types.ts`; `timestamp` is milliseconds since epoch. -/
structure Answer where
  id : String
  questionId : String
  response : AnswerResponse
  timestamp : Nat
deriving DecidableEq

/-- The `RefinementSession` from `shared/types.ts`; `Date` fields are milliseconds. -/
structure RefinementSession where
  id : String
  originalPrompt : String
  refinedPrompt : String
  status : SessionStatus
  createdAt : Nat
  updatedAt : Nat
  llmProvider : String
  model : Option String
  questions : List Question
  answers : List Answer
  expiresAt : Nat
deriving DecidableEq

/-- A question object as it appears in the vendor's JSON, before
normalization (`q` in the `parsed.questions.map` of
`parseQuestionsFromResponse`).  Fields the vendor may omit are `Option`s. -/
structure RawQuestion where
  text : String
  category : Option String := none
  impact : Option String := none
  explanation : Option String := none
  options : Option (List String) := none
  defaultOption : Option Int := none
deriving DecidableEq

/-- JavaScript `v || d` for an optional string field: `undefined` and the
empty string are falsy, any other string is kept. -/
def jsOrStr (v : Option String) (d : String) : String :=
  match v with
  | none => d
  | some s => if s = "" then d else s

/-- JavaScript `v || d` for an optional array field: `undefined` is falsy,
but every array — including the empty array — is truthy and kept. -/
def jsOrList (v : Option (List String)) (d : List String) : List String :=
  match v with
  | none => d
  | some l => l

/-- JavaScript `v || d` for an optional numeric field: `undefined` and `0`
are falsy, every other number is kept. -/
def jsOrInt (v : Option Int) (d : Int) : Int :=
  match v with
  | none => d
  | some n => if n = 0 then d else n

/-- The `Array.prototype.map` with the element index, as used by
`parsed.questions.map((q, index) => ...)`. -/
def mapWithIndexFrom (f : Nat → α → β) : Nat → List α → List β
  | _, [] => []
  | i, x :: xs => f i x :: mapWithIndexFrom f (i + 1) xs

def mapWithIndex (f : Nat → α → β) (l : List α) : List β :=
  mapWithIndexFrom f 0 l

/-- The per-question normalization step shared verbatim by
`BaseLLMProvider.parseQuestionsFromResponse` and
`GroqProvider.parseGroqResponse`:

```
id: this.generateQuestionId(), text: q.text, order: index,
category: q.category || 'clarity', impact: q.impact || 'medium',
explanation: q.explanation,
options: q.options || ['Yes', 'Maybe', 'No'],
defaultOption: q.defaultOption || 1,
```

`mkId` supplies the fresh ids produced by `generateQuestionId()`. -/
def normalizeQuestion (mkId : Nat → String) (index : Nat) (q : RawQuestion) : Question :=
  { id := mkId index
    text := q.text
    order := index
    category := jsOrStr q.category "clarity"
    impact := jsOrStr q.impact "medium"
    explanation := q.explanation
    options := jsOrList q.options ["Yes", "Maybe", "No"]
    defaultOption := jsOrInt q.defaultOption 1 }

/-- Outcome of `JSON.parse(response)` followed by the
`parsed.questions && Array.isArray(parsed.questions)` check:
either the parse threw / the `questions` array is missing (`invalid`),
or it produced an array of raw question objects. -/
inductive ParsedResponse
  | invalid
  | questions (qs : List RawQuestion)
deriving DecidableEq

/-- The `BaseLLMProvider.parseQuestionsFromResponse` (backend/src/providers/base.ts):
on a parse failure or a missing `questions` array it returns `[]`,
otherwise it normalizes every raw question with its index. -/
def parseQuestionsFromResponse (mkId : Nat → String) (r : ParsedResponse) : List Question :=
  match r with
  | .invalid => []
  | .questions qs => mapWithIndex (normalizeQuestion mkId) qs

/-- Outcome of `GroqProvider.parseGroqResponse`'s extraction pipeline
(code-fence regex, then bare `{..."questions"...}` regex, then
`JSON.parse`):

* `questions qs` — some stage produced JSON with a `questions` array;
* `noQuestionsField` — the JSON parsed but had no `questions` array
  (the code returns `[]` without attempting regex recovery);
* `unparseable ms` — `JSON.parse` threw; `ms` are the texts matched by
  the `tryFallbackParsing` question regex, already stripped of their
  `Question N:` / `Q1:` / `1.` label and trimmed as the code does. -/
inductive GroqParsed
  | questions (qs : List RawQuestion)
  | noQuestionsField
  | unparseable (questionTexts : List String)
deriving DecidableEq

/-- The `GroqProvider.tryFallbackParsing`: takes the regex-matched question
texts, keeps at most 7, and synthesizes a 3-option scaffold around each. -/
def tryFallbackParsing (mkId : Nat → String) (questionTexts : List String) : List Question :=
  mapWithIndex
    (fun i t =>
      { id := mkId i
        text := t
        order := i
        category := "clarity"
        impact := "medium"
        explanation := some "Auto-generated question from Groq response"
        options := ["Yes", "Somewhat", "No"]
        defaultOption := 1 })
    (questionTexts.take 7)

/-- The `GroqProvider.parseGroqResponse`: JSON with a `questions` array is
normalized exactly like the base parser; JSON without the array yields
`[]`; a JSON parse failure falls through to `tryFallbackParsing`. -/
def parseGroqResponse (mkId : Nat → String) (r : GroqParsed) : List Question :=
  match r with
  | .questions qs => mapWithIndex (normalizeQuestion mkId) qs
  | .noQuestionsField => []
  | .unparseable ms => tryFallbackParsing mkId ms

/-- The hardcoded fallback question set, duplicated verbatim in
`generateFallbackQuestions` of the OpenAI, Anthropic and Groq providers. -/
def generateFallbackQuestions (mkId : Nat → String) : List Question :=
  [ { id := mkId 0
      text := "What level of detail do you want in the response?"
      order := 0
      category := "specificity"
      impact := "high"
      explanation := some "Helps determine the level of detail needed"
      options := ["Basic", "Detailed", "Comprehensive"]
      defaultOption := 1 },
    { id := mkId 1
      text := "What type of thinking approach do you prefer?"
      order := 1
      category := "clarity"
      impact := "high"
      explanation := some "Clarifies the type of thinking required"
      options := ["Creative", "Balanced", "Analytical"]
      defaultOption := 1 },
    { id := mkId 2
      text := "How specific should the audience targeting be?"
      order := 2
      category := "context"
      impact := "medium"
      explanation := some "Helps tailor the response appropriately"
      options := ["General", "Somewhat Specific", "Highly Specific"]
      defaultOption := 1 },
    { id := mkId 3
      text := "How many examples should be included?"
      order := 3
      category := "specificity"
      impact := "medium"
      explanation := some "Determines whether to include concrete examples"
      options := ["Few", "Moderate", "Many"]
      defaultOption := 1 },
    { id := mkId 4
      text := "How strict should the constraints be?"
      order := 4
      category := "constraints"
      impact := "medium"
      explanation := some "Identifies any limitations or restrictions"
      options := ["Flexible", "Moderate", "Strict"]
      defaultOption := 1 } ]

/-- Does the second character list start with the first? -/
def charsHaveStart : List Char → List Char → Bool
  | [], _ => true
  | _ :: _, [] => false
  | a :: as, b :: bs => a == b && charsHaveStart as bs

/-- Does the character list contain the pattern as a contiguous run? -/
def charsContain (pat : List Char) : List Char → Bool
  | [] => pat.isEmpty
  | c :: rest => charsHaveStart pat (c :: rest) || charsContain pat rest

/-- The `s.includes(pat)` on JavaScript strings (used for the
`error.message?.includes('parse questions')` re-throw check). -/
def strContains (s pat : String) : Bool :=
  charsContain pat.data s.data

/-- Outcome of one vendor completion call, as observed by an adapter's
`try` block:

* `apiError status code msg` — the HTTP client threw (`status` is
  `error.response?.status`, `code` is `error.code`, `msg` is
  `error.message`);
* `noContent` — the call succeeded but
  `response.choices[0]?.message?.content` was absent;
* `content c` — the call succeeded and the content parsed as `c`. -/
inductive VendorOutcome (α : Type)
  | apiError (status : Option Nat) (code : Option String) (msg : String)
  | noContent
  | content (c : α)
deriving DecidableEq

/-- The error-message mapping of `OpenAIProvider.generateQuestions`'s
`catch` block (openai.ts lines 83-99). -/
def openaiMapError (model : String) (status : Option Nat) (code : Option String)
    (msg : String) : String :=
  if status = some 401 then
    "OpenAI API key is invalid or expired. Please check your API key configuration."
  else if status = some 429 then
    "OpenAI rate limit exceeded. Please wait a moment before trying again or upgrade your plan."
  else if status = some 404 then
    "OpenAI model \"" ++ model ++ "\" is not available or accessible with your current plan."
  else if code = some "ENOTFOUND" ∨ code = some "ECONNREFUSED" then
    "Unable to connect to OpenAI. Please check your internet connection."
  else if strContains msg "parse questions" then
    msg
  else
    "OpenAI API error: " ++ msg

/-- The `OpenAIProvider.generateQuestions` after the vendor call: a missing
content or a zero-question parse throws inside the `try`, and every
thrown error is re-mapped by the `catch` block; a successful parse is
clamped to `maxQuestions`.  The result is `Except`: `error` models a
thrown (typed) error reaching the caller. -/
def openaiGenerateQuestions (mkId : Nat → String) (model : String) (maxQuestions : Nat)
    (out : VendorOutcome ParsedResponse) : Except String (List Question) :=
  match out with
  | .apiError status code msg => .error (openaiMapError model status code msg)
  | .noContent => .error (openaiMapError model none none "No content received from OpenAI")
  | .content r =>
    let questions := parseQuestionsFromResponse mkId r
    if questions.length = 0 then
      .error (openaiMapError model none none
        "OpenAI returned an invalid response format. Unable to parse questions from the response.")
    else
      .ok (questions.take maxQuestions)

/-- The error-message mapping of `GroqProvider.generateQuestions`'s
`catch` block (mirrors the OpenAI one with Groq wording). -/
def groqMapError (model : String) (status : Option Nat) (code : Option String)
    (msg : String) : String :=
  if status = some 401 then
    "Groq API key is invalid or expired. Please check your API key configuration."
  else if status = some 429 then
    "Groq rate limit exceeded. Please wait a moment before trying again or upgrade your plan."
  else if status = some 404 then
    "Groq model \"" ++ model ++ "\" is not available or accessible with your current plan."
  else if code = some "ENOTFOUND" ∨ code = some "ECONNREFUSED" then
    "Unable to connect to Groq. Please check your internet connection."
  else if strContains msg "parse questions" then
    msg
  else
    "Groq API error: " ++ msg

/-- The `GroqProvider.generateQuestions` after the vendor call: same shape as
the OpenAI adapter, but the content goes through `parseGroqResponse`. -/
def groqGenerateQuestions (mkId : Nat → String) (model : String) (maxQuestions : Nat)
    (out : VendorOutcome GroqParsed) : Except String (List Question) :=
  match out with
  | .apiError status code msg => .error (groqMapError model status code msg)
  | .noContent => .error (groqMapError model none none "No content received from Groq")
  | .content r =>
    let questions := parseGroqResponse mkId r
    if questions.length = 0 then
      .error (groqMapError model none none
        "Groq returned an invalid response format. Unable to parse questions from the response.")
    else
      .ok (questions.take maxQuestions)

/-- Outcome of the Anthropic messages call as observed by
`AnthropicProvider.generateQuestions`'s `try` block: an HTTP failure, a
non-`text` first content block, or a text block parsed as
`ParsedResponse`. -/
inductive AnthropicOutcome
  | apiError (status : Option Nat) (code : Option String) (msg : String)
  | nonTextContent
  | text (r : ParsedResponse)
deriving DecidableEq

/-- The `AnthropicProvider.generateQuestions` (providers/index.ts lines
94-130) after the availability check: every error raised inside the
`try` — including the `Unexpected response type` throw — is caught and
answered with `generateFallbackQuestions`, and a parse that yields zero
questions also falls back; the adapter therefore always returns a
question list and never surfaces a parse error. -/
def anthropicGenerateQuestions (mkId : Nat → String) (maxQuestions : Nat)
    (out : AnthropicOutcome) : List Question :=
  match out with
  | .apiError _ _ _ => generateFallbackQuestions mkId
  | .nonTextContent => generateFallbackQuestions mkId
  | .text r =>
    let questions := parseQuestionsFromResponse mkId r
    if questions.length > 0 then
      questions.take maxQuestions
    else
      generateFallbackQuestions mkId

/-- The answer text chosen by `BaseLLMProvider.formatQuestionsForPrompt`
for one question: `'Not answered'` when no answer matches, `Yes`/`No`
for a legacy boolean answer, `answer.response.toString()` (verbatim) for
a string answer. -/
def renderAnswerText (a : Option Answer) : String :=
  match a with
  | none => "Not answered"
  | some ans =>
    match ans.response with
    | .bool b => if b then "Yes" else "No"
    | .str s => s

/-- The `Q:`/`A:` block `formatQuestionsForPrompt` builds for one
question, using `answers.find(a => a.questionId === q.id)`. -/
def transcriptLine (answers : List Answer) (q : Question) : String :=
  "Q: " ++ q.text ++ "\nA: " ++
    renderAnswerText (answers.find? (fun a => a.questionId == q.id))

/-- The `BaseLLMProvider.formatQuestionsForPrompt` (base.ts lines 124-143),
the transcript used by the OpenAI and Groq `refinePrompt` calls. -/
def formatQuestionsForPrompt (questions : List Question) (answers : List Answer) : String :=
  String.intercalate "\n\n" (questions.map (transcriptLine answers))

/-- The `new Map(answers.map(a => [a.questionId, a.response]))` followed by
`answerMap.get(qid)`: the map keeps the last entry for a duplicated key. -/
def answerMapGet (answers : List Answer) (qid : String) : Option AnswerResponse :=
  (answers.reverse.find? (fun a => a.questionId == qid)).map (fun a => a.response)

/-- The `- question: answer\n` line a single question contributes to
`AnthropicProvider.buildRefinementConversation`; a question whose id has
no entry in the answer map contributes nothing. -/
def anthropicAnswerLine (answers : List Answer) (q : Question) : String :=
  match answerMapGet answers q.id with
  | none => ""
  | some (.bool b) => "- " ++ q.text ++ ": " ++ (if b then "Yes" else "No") ++ "\n"
  | some (.str s) => "- " ++ q.text ++ ": " ++ s ++ "\n"

/-- Left-to-right accumulation of the `conversation += line` loop. -/
def joinLines : List String → String
  | [] => ""
  | s :: rest => s ++ joinLines rest

/-- The `AnthropicProvider.buildRefinementConversation` (providers/index.ts
lines 170-194): the transcript sent to the vendor by the Anthropic
`refinePrompt`.  `sysPrompt` stands for `this.buildSystemPrompt('refinement')`. -/
def buildRefinementConversation (sysPrompt originalPrompt : String)
    (questions : List Question) (answers : List Answer) : String :=
  sysPrompt ++ "\n\nOriginal prompt: \"" ++ originalPrompt ++ "\"\n\nQuestions and answers:\n"
    ++ joinLines (questions.map (anthropicAnswerLine answers))
    ++ "\nPlease create a refined version of the original prompt based on these answers."

/-- The in-memory store of `InMemorySessionStorage`: a JavaScript `Map`
from session id to session, modelled as an insertion-ordered
association list with unique keys. -/
abbrev Storage : Type := List (String × RefinementSession)

/-- The `this.sessions.get(sessionId)` on the backing map. -/
def lookupSession : Storage → String → Option RefinementSession
  | [], _ => none
  | (k, v) :: rest, sid => if k = sid then some v else lookupSession rest sid

/-- The `this.sessions.set(id, session)`: replace the entry in place when the
key is present, otherwise append. -/
def storageSet : Storage → String → RefinementSession → Storage
  | [], sid, s => [(sid, s)]
  | (k, v) :: rest, sid, s =>
    if k = sid then (sid, s) :: rest else (k, v) :: storageSet rest sid s

/-- The `InMemorySessionStorage.deleteSession`: `this.sessions.delete(sessionId)`. -/
def deleteSession (st : Storage) (sid : String) : Storage :=
  st.filter (fun p => p.1 ≠ sid)

/-- The `InMemorySessionStorage.getSession` (the lazy-expiry read): a missing
id yields `none`; an entry whose `expiresAt` lies strictly before `now`
is deleted and reported as `none`; otherwise a copy of the session is
returned.  The first component is the storage after the read. -/
def getSession (st : Storage) (now : Nat) (sid : String) :
    Storage × Option RefinementSession :=
  match lookupSession st sid with
  | none => (st, none)
  | some s => if now > s.expiresAt then (deleteSession st sid, none) else (st, some s)

/-- The `InMemorySessionStorage.createNewSession`: builds (without storing) a
fresh `draft` session whose `expiresAt` is
`now + sessionTimeoutHours * 60 * 60 * 1000`. -/
def createNewSession (newId : String) (now : Nat) (timeoutHours : Nat)
    (originalPrompt llmProvider : String) (model : Option String) : RefinementSession :=
  { id := newId
    originalPrompt := originalPrompt
    refinedPrompt := ""
    status := .draft
    createdAt := now
    updatedAt := now
    llmProvider := llmProvider
    model := model
    questions := []
    answers := []
    expiresAt := now + timeoutHours * 60 * 60 * 1000 }

/-- The `InMemorySessionStorage.updateSession` specialized to the
`{ answers }` update issued by `answerQuestion`: merge the update into
the stored session, refresh `updatedAt`, and throw (`error`) when the id
is absent. -/
def updateSessionAnswers (st : Storage) (now : Nat) (sid : String)
    (answers : List Answer) : Except String Storage :=
  match lookupSession st sid with
  | none => .error ("Session " ++ sid ++ " not found")
  | some s => .ok (storageSet st sid { s with answers := answers, updatedAt := now })

/-- The `PromptRefinementService.createSession`.  `registered` is the key set
of the provider factory (`getProvider` returns `null` exactly for ids
outside it); `genResult` is the outcome of the synchronous
`this.generateQuestions` call for this request (`ok` with the adapter's
question list, or `error` with the propagated adapter failure); `newId`
is the `uuidv4()` the storage helper draws.  The first component is the
storage after the call — unchanged whenever an error is thrown, since
`sessionStorage.createSession` only runs after question generation. -/
def createSession (registered : List String)
    (genResult : Except String (List Question))
    (newId : String) (now : Nat) (timeoutHours : Nat) (st : Storage)
    (originalPrompt llmProvider : String) (model : Option String) :
    Storage × Except String (RefinementSession × List Question) :=
  if registered.contains llmProvider then
    let session := createNewSession newId now timeoutHours originalPrompt llmProvider model
    match genResult with
    | .error e => (st, .error e)
    | .ok questions =>
      let stored := { session with questions := questions, status := SessionStatus.refining }
      (storageSet st stored.id stored, .ok (stored, questions))
  else
    (st, .error ("LLM provider '" ++ llmProvider ++ "' is not available"))

/-- The answer upsert of `PromptRefinementService.answerQuestion`:
`findIndex` on `questionId`, assign in place when found, else `push`. -/
def upsertAnswer (answers : List Answer) (a : Answer) : List Answer :=
  match answers.findIdx? (fun x => x.questionId == a.questionId) with
  | some i => answers.set i a
  | none => answers ++ [a]

/-- The `PromptRefinementService.answerQuestion`: read the session through
the lazy-expiry `getSession`, reject an unknown session or question id,
build the answer with a fresh `uuidv4()` id (`freshId`) and the current
time as `timestamp`, upsert it, and persist via `updateSession`. -/
def answerQuestion (st : Storage) (now : Nat) (freshId : String)
    (sessionId questionId : String) (response : AnswerResponse) :
    Storage × Except String Answer :=
  let read := getSession st now sessionId
  match read.2 with
  | none => (read.1, .error ("Session " ++ sessionId ++ " not found"))
  | some session =>
    match session.questions.find? (fun q => q.id == questionId) with
    | none => (read.1, .error ("Question " ++ questionId ++ " not found in session"))
    | some _ =>
      let answer : Answer :=
        { id := freshId, questionId := questionId, response := response, timestamp := now }
      let newAnswers := upsertAnswer session.answers answer
      match updateSessionAnswers read.1 now sessionId newAnswers with
      | .error e => (read.1, .error e)
      | .ok st2 => (st2, .ok answer)

/-- One `answerQuestion` invocation's inputs (its clock reading, the
fresh uuid it draws, and the request parameters). -/
structure AnswerCall where
  now : Nat
  freshId : String
  sessionId : String
  questionId : String
  response : AnswerResponse

/-- Run a sequence of `answerQuestion` calls, threading the storage. -/
def runAnswerCalls (st : Storage) (calls : List AnswerCall) : Storage :=
  calls.foldl
    (fun acc c => (answerQuestion acc c.now c.freshId c.sessionId c.questionId c.response).1)
    st

/-- Environment credentials consumed by `config.llmProviders`
(config/index.ts): `none` models an unset variable. -/
structure Env where
  openaiApiKey : Option String
  anthropicApiKey : Option String
  groqApiKey : Option String
deriving DecidableEq

/-- JavaScript truthiness of `process.env.X` / of an optional string:
unset and the empty string are falsy. -/
def truthy (v : Option String) : Bool :=
  match v with
  | none => false
  | some s => s ≠ ""

/-- The `llmProviders` section of `config` (config/index.ts lines 16-36),
restricted to the three vendors the claims mention: each field is
`some apiKey` when the env var is truthy, `undefined` otherwise. -/
structure ProvidersConfig where
  openai : Option String
  anthropic : Option String
  groq : Option String
deriving DecidableEq

def buildLlmProvidersConfig (e : Env) : ProvidersConfig :=
  { openai := if truthy e.openaiApiKey then e.openaiApiKey else none
    anthropic := if truthy e.anthropicApiKey then e.anthropicApiKey else none
    groq := if truthy e.groqApiKey then e.groqApiKey else none }

/-- The `LLMProviderFactory.initializeProviders` (the factory constructor):
it registers `openai` when `config.llmProviders.openai?.apiKey` is
truthy and `anthropic` when `config.llmProviders.anthropic?.apiKey` is
truthy — and nothing else (the Groq, Google and Ollama adapters are
never added to the map).  The result is the insertion-ordered key set of
`this.providers`. -/
def initializeProviders (cfg : ProvidersConfig) : List String :=
  (if truthy cfg.openai then ["openai"] else [])
    ++ (if truthy cfg.anthropic then ["anthropic"] else [])

/-- A session's answers name each `questionId` at most once. -/
def noDupAnswers (answers : List Answer) : Prop :=
  (answers.map (fun a => a.questionId)).Nodup

instance (answers : List Answer) : Decidable (noDupAnswers answers) := by
  unfold noDupAnswers
  infer_instance

/-- Every session held in storage satisfies `noDupAnswers`. -/
def storageAnswersNodup (st : Storage) : Prop :=
  ∀ p ∈ st, noDupAnswers p.2.answers

instance (st : Storage) : Decidable (storageAnswersNodup st) := by
  unfold storageAnswersNodup
  exact List.decidableBAll _ st

/-! ### Helper lemmas about the storage map -/

lemma lookupSession_storageSet_self (st : Storage) (sid : String) (s : RefinementSession) :
    lookupSession (storageSet st sid s) sid = some s := by
  induction st with
  | nil => simp [storageSet, lookupSession]
  | cons p rest ih =>
    obtain ⟨k, v⟩ := p
    by_cases h : k = sid
    · simp [storageSet, h, lookupSession]
    · simp [storageSet, h, lookupSession, ih]

lemma lookupSession_storageSet_ne (st : Storage) (sid sid' : String) (s : RefinementSession)
    (h : sid' ≠ sid) :
    lookupSession (storageSet st sid s) sid' = lookupSession st sid' := by
  induction st with
  | nil => simp [storageSet, lookupSession, Ne.symm h]
  | cons p rest ih =>
    obtain ⟨k, v⟩ := p
    by_cases hk : k = sid
    · subst hk
      simp [storageSet, lookupSession, Ne.symm h]
    · simp only [storageSet, if_neg hk, lookupSession]
      by_cases hk' : k = sid'
      · simp [hk']
      · simp [hk', ih]

lemma mem_storageSet (st : Storage) (sid : String) (s : RefinementSession)
    (p : String × RefinementSession) (hp : p ∈ storageSet st sid s) :
    p = (sid, s) ∨ p ∈ st := by
  induction st with
  | nil =>
    simp [storageSet] at hp
    exact Or.inl hp
  | cons q rest ih =>
    obtain ⟨k, v⟩ := q
    by_cases hk : k = sid
    · simp [storageSet, hk] at hp
      rcases hp with rfl | hp
      · exact Or.inl rfl
      · exact Or.inr (List.mem_cons_of_mem _ hp)
    · simp only [storageSet, if_neg hk] at hp
      rcases List.mem_cons.mp hp with rfl | hp
      · exact Or.inr (List.mem_cons_self _ _)
      · rcases ih hp with h | h
        · exact Or.inl h
        · exact Or.inr (List.mem_cons_of_mem _ h)

lemma mem_deleteSession (st : Storage) (sid : String)
    (p : String × RefinementSession) (hp : p ∈ deleteSession st sid) : p ∈ st :=
  List.mem_of_mem_filter hp

lemma lookupSession_deleteSession_self (st : Storage) (sid : String) :
    lookupSession (deleteSession st sid) sid = none := by
  induction st with
  | nil => simp [deleteSession, lookupSession]
  | cons p rest ih =>
    obtain ⟨k, v⟩ := p
    by_cases hk : k = sid
    · simpa [deleteSession, hk] using ih
    · simpa [deleteSession, hk, lookupSession] using ih

/-! ### Helper lemmas about the answer upsert -/

lemma upsertAnswer_nil (a : Answer) : upsertAnswer [] a = [a] := rfl

lemma upsertAnswer_cons (x : Answer) (rest : List Answer) (a : Answer) :
    upsertAnswer (x :: rest) a =
      if x.questionId = a.questionId then a :: rest else x :: upsertAnswer rest a := by
  unfold upsertAnswer
  rw [List.findIdx?_cons]
  by_cases h : x.questionId = a.questionId
  · simp [h]
  · rw [if_neg (by simpa using h), if_neg h, List.findIdx?_succ]
    cases hfind : List.findIdx? (fun y => y.questionId == a.questionId) rest with
    | none => simp
    | some i => simp

lemma mem_map_upsertAnswer (as : List Answer) (a : Answer) (y : String)
    (hy : y ∈ (upsertAnswer as a).map (fun x => x.questionId)) :
    y ∈ as.map (fun x => x.questionId) ∨ y = a.questionId := by
  induction as with
  | nil =>
    rw [upsertAnswer_nil] at hy
    simp at hy
    exact Or.inr hy
  | cons x rest ih =>
    rw [upsertAnswer_cons] at hy
    by_cases h : x.questionId = a.questionId
    · rw [if_pos h] at hy
      simp at hy
      rcases hy with rfl | hy
      · exact Or.inr rfl
      · exact Or.inl (by simp; exact Or.inr (List.mem_map.mp (by simpa using hy)))
    · rw [if_neg h] at hy
      simp at hy
      rcases hy with rfl | hy
      · exact Or.inl (by simp)
      · rcases ih (by simpa using hy) with h' | h'
        · exact Or.inl (by simp at h' ⊢; exact Or.inr h')
        · exact Or.inr h'

lemma noDupAnswers_upsertAnswer (as : List Answer) (a : Answer)
    (h : noDupAnswers as) : noDupAnswers (upsertAnswer as a) := by
  induction as with
  | nil =>
    rw [upsertAnswer_nil]
    simp [noDupAnswers]
  | cons x rest ih =>
    unfold noDupAnswers at h ⊢
    simp only [List.map_cons, List.nodup_cons] at h
    obtain ⟨hx, hrest⟩ := h
    by_cases hq : x.questionId = a.questionId
    · rw [upsertAnswer_cons, if_pos hq]
      simp only [List.map_cons, List.nodup_cons]
      exact ⟨hq ▸ hx, hrest⟩
    · rw [upsertAnswer_cons, if_neg hq]
      simp only [List.map_cons, List.nodup_cons]
      refine ⟨?_, ih hrest⟩
      intro hmem
      rcases mem_map_upsertAnswer rest a _ hmem with h' | h'
      · exact hx h'
      · exact hq h'

lemma length_upsertAnswer_of_mem (as : List Answer) (a : Answer) (b : Answer)
    (hb : b ∈ as) (hq : b.questionId = a.questionId) :
    (upsertAnswer as a).length = as.length := by
  induction as with
  | nil => simp at hb
  | cons x rest ih =>
    rw [upsertAnswer_cons]
    by_cases h : x.questionId = a.questionId
    · simp [h]
    · rcases List.mem_cons.mp hb with rfl | hb'
      · exact absurd hq h
      · simp [h, ih hb']

lemma find?_upsertAnswer (as : List Answer) (a : Answer) :
    (upsertAnswer as a).find? (fun x => x.questionId == a.questionId) = some a := by
  induction as with
  | nil =>
    rw [upsertAnswer_nil]
    simp [List.find?_cons]
  | cons x rest ih =>
    rw [upsertAnswer_cons]
    by_cases h : x.questionId = a.questionId
    · rw [if_pos h]
      simp [List.find?_cons]
    · rw [if_neg h]
      rw [List.find?_cons]
      have : (x.questionId == a.questionId) = false := by simpa using h
      rw [this]
      exact ih

lemma map_pair_upsertAnswer (as : List Answer) (a b : Answer)
    (hfind : as.find? (fun x => x.questionId == a.questionId) = some b)
    (hresp : b.response = a.response) :
    (upsertAnswer as a).map (fun x => (x.questionId, x.response)) =
      as.map (fun x => (x.questionId, x.response)) := by
  induction as with
  | nil => simp [List.find?] at hfind
  | cons x rest ih =>
    rw [List.find?_cons] at hfind
    by_cases h : x.questionId = a.questionId
    · rw [upsertAnswer_cons, if_pos h]
      have hx : (x.questionId == a.questionId) = true := by simpa using h
      rw [hx] at hfind
      simp only [Option.some.injEq] at hfind
      subst hfind
      simp [h, hresp]
    · rw [upsertAnswer_cons, if_neg h]
      have hx : (x.questionId == a.questionId) = false := by simpa using h
      rw [hx] at hfind
      simp [ih hfind]

lemma lookupSession_mem (st : Storage) (sid : String) (s : RefinementSession)
    (h : lookupSession st sid = some s) : (sid, s) ∈ st := by
  induction st with
  | nil => simp [lookupSession] at h
  | cons p rest ih =>
    obtain ⟨k, v⟩ := p
    by_cases hk : k = sid
    · subst hk
      simp [lookupSession] at h
      subst h
      exact List.mem_cons_self _ _
    · simp [lookupSession, hk] at h
      exact List.mem_cons_of_mem _ (ih h)

/-! ### Preservation of the answer invariant -/

lemma storageAnswersNodup_storageSet (st : Storage) (sid : String) (s : RefinementSession)
    (hst : storageAnswersNodup st) (hs : noDupAnswers s.answers) :
    storageAnswersNodup (storageSet st sid s) := by
  intro p hp
  rcases mem_storageSet st sid s p hp with rfl | hp'
  · exact hs
  · exact hst p hp'

lemma storageAnswersNodup_deleteSession (st : Storage) (sid : String)
    (hst : storageAnswersNodup st) : storageAnswersNodup (deleteSession st sid) :=
  fun p hp => hst p (mem_deleteSession st sid p hp)

lemma storageAnswersNodup_getSession (st : Storage) (now : Nat) (sid : String)
    (hst : storageAnswersNodup st) : storageAnswersNodup (getSession st now sid).1 := by
  unfold getSession
  cases h : lookupSession st sid with
  | none => exact hst
  | some s =>
    by_cases he : now > s.expiresAt
    · simpa [he] using storageAnswersNodup_deleteSession st sid hst
    · simpa [he] using hst

/-- When the lazy-expiry read returns a session, the storage is untouched
and the session is the stored one, unexpired. -/
lemma getSession_some (st : Storage) (now : Nat) (sid : String) (s : RefinementSession)
    (h : (getSession st now sid).2 = some s) :
    (getSession st now sid).1 = st ∧ lookupSession st sid = some s ∧ ¬ now > s.expiresAt := by
  unfold getSession at h ⊢
  cases hl : lookupSession st sid with
  | none => simp [hl] at h
  | some s' =>
    by_cases he : now > s'.expiresAt
    · simp [hl, he] at h
    · simp [hl, he] at h ⊢
      subst h
      exact ⟨rfl, Nat.le_of_not_lt he⟩

lemma storageAnswersNodup_answerQuestion (st : Storage) (now : Nat) (freshId : String)
    (sessionId questionId : String) (response : AnswerResponse)
    (hst : storageAnswersNodup st) :
    storageAnswersNodup (answerQuestion st now freshId sessionId questionId response).1 := by
  simp only [answerQuestion]
  cases hread : (getSession st now sessionId).2 with
  | none => simpa using storageAnswersNodup_getSession st now sessionId hst
  | some session =>
    obtain ⟨h1, h2, _⟩ := getSession_some st now sessionId session hread
    have hsess : noDupAnswers session.answers := hst _ (lookupSession_mem st sessionId session h2)
    have hup : noDupAnswers (upsertAnswer session.answers
        { id := freshId, questionId := questionId, response := response, timestamp := now }) :=
      noDupAnswers_upsertAnswer _ _ hsess
    cases hq : session.questions.find? (fun q => q.id == questionId) with
    | none =>
      simp only [hq]
      simpa using storageAnswersNodup_getSession st now sessionId hst
    | some q =>
      simp only [hq]
      cases hupd : updateSessionAnswers (getSession st now sessionId).1 now sessionId
          (upsertAnswer session.answers
            { id := freshId, questionId := questionId, response := response, timestamp := now }) with
      | error e =>
        simp only [hupd]
        simpa using storageAnswersNodup_getSession st now sessionId hst
      | ok st2 =>
        simp only [hupd]
        unfold updateSessionAnswers at hupd
        rw [h1, h2] at hupd
        simp only [Except.ok.injEq] at hupd
        subst hupd
        exact storageAnswersNodup_storageSet st sessionId
          { session with
              answers := upsertAnswer session.answers
                { id := freshId, questionId := questionId, response := response, timestamp := now }
              updatedAt := now } hst hup

/-! ### Helper lemmas for indexed mapping and line joining -/

lemma mem_mapWithIndexFrom {f : Nat → α → β} {b : β} :
    ∀ {i : Nat} {l : List α}, b ∈ mapWithIndexFrom f i l → ∃ j x, x ∈ l ∧ b = f j x := by
  intro i l
  induction l generalizing i with
  | nil => simp [mapWithIndexFrom]
  | cons x xs ih =>
    intro h
    rcases List.mem_cons.mp h with rfl | h'
    · exact ⟨i, x, List.mem_cons_self _ _, rfl⟩
    · obtain ⟨j, y, hy, rfl⟩ := ih h'
      exact ⟨j, y, List.mem_cons_of_mem _ hy, rfl⟩

lemma mem_mapWithIndex {f : Nat → α → β} {b : β} {l : List α}
    (h : b ∈ mapWithIndex f l) : ∃ j x, x ∈ l ∧ b = f j x :=
  mem_mapWithIndexFrom h

lemma joinLines_append (l1 l2 : List String) :
    joinLines (l1 ++ l2) = joinLines l1 ++ joinLines l2 := by
  induction l1 with
  | nil => simp [joinLines]
  | cons s rest ih => simp [joinLines, ih, String.append_assoc]

/-- The success path of `answerQuestion`: with a stored, unexpired
session containing the question, the call upserts the freshly built
answer and persists the session with `updatedAt` refreshed. -/
lemma answerQuestion_success (st : Storage) (now : Nat) (fid sid qid : String)
    (resp : AnswerResponse) (s : RefinementSession) (q0 : Question)
    (hs : lookupSession st sid = some s) (hexp : ¬ now > s.expiresAt)
    (hq : s.questions.find? (fun q => q.id == qid) = some q0) :
    answerQuestion st now fid sid qid resp =
      (storageSet st sid
          { s with
              answers := upsertAnswer s.answers
                { id := fid, questionId := qid, response := resp, timestamp := now }
              updatedAt := now },
        Except.ok { id := fid, questionId := qid, response := resp, timestamp := now }) := by
  have hread : getSession st now sid = (st, some s) := by
    unfold getSession
    rw [hs]
    simp [hexp]
  simp only [answerQuestion, hread]
  rw [hq]
  simp [updateSessionAnswers, hs]

/-- The `catch` of the OpenAI adapter re-throws the parse-failure message
unchanged (it contains `parse questions` and carries no HTTP status). -/
lemma openaiMapError_parse (model : String) :
    openaiMapError model none none
        "OpenAI returned an invalid response format. Unable to parse questions from the response." =
      "OpenAI returned an invalid response format. Unable to parse questions from the response." :=
  rfl

/-- Likewise for the Groq adapter's parse-failure message. -/
lemma groqMapError_parse (model : String) :
    groqMapError model none none
        "Groq returned an invalid response format. Unable to parse questions from the response." =
      "Groq returned an invalid response format. Unable to parse questions from the response." :=
  rfl

/-! ## Claims -/

/-- Claim C1, counterexample. The claim says every adapter fails with a
typed generation-parse error when all parsing yields zero questions and
never silently substitutes the hardcoded fallback set.  The Anthropic
adapter does the opposite: on a vendor response whose parse yields zero
questions it returns the (non-empty) hardcoded fallback question set as
a successful result. -/
theorem c1_counterexample :
    anthropicGenerateQuestions (fun i => "q" ++ toString i) 7
        (AnthropicOutcome.text ParsedResponse.invalid) =
      generateFallbackQuestions (fun i => "q" ++ toString i) ∧
    generateFallbackQuestions (fun i => "q" ++ toString i) ≠ [] := by
  exact ⟨rfl, by decide⟩

/-- Claim C1, amended. When every parsing/recovery stage yields zero
questions, the OpenAI and Groq adapters fail with their typed
parse-error message; the Anthropic adapter instead silently returns the
hardcoded fallback question set. -/
theorem c1_zero_questions_behavior :
    (∀ (mkId : Nat → String) (model : String) (maxQ : Nat) (r : ParsedResponse),
        parseQuestionsFromResponse mkId r = [] →
        openaiGenerateQuestions mkId model maxQ (VendorOutcome.content r) =
          Except.error
            "OpenAI returned an invalid response format. Unable to parse questions from the response.") ∧
    (∀ (mkId : Nat → String) (model : String) (maxQ : Nat) (r : GroqParsed),
        parseGroqResponse mkId r = [] →
        groqGenerateQuestions mkId model maxQ (VendorOutcome.content r) =
          Except.error
            "Groq returned an invalid response format. Unable to parse questions from the response.") ∧
    (∀ (mkId : Nat → String) (maxQ : Nat) (r : ParsedResponse),
        parseQuestionsFromResponse mkId r = [] →
        anthropicGenerateQuestions mkId maxQ (AnthropicOutcome.text r) =
          generateFallbackQuestions mkId) := by
  refine ⟨?_, ?_, ?_⟩
  · intro mkId model maxQ r h
    simp only [openaiGenerateQuestions, h, List.length_nil, if_pos rfl]
    exact congrArg Except.error (openaiMapError_parse model)
  · intro mkId model maxQ r h
    simp only [groqGenerateQuestions, h, List.length_nil, if_pos rfl]
    exact congrArg Except.error (groqMapError_parse model)
  · intro mkId maxQ r h
    simp [anthropicGenerateQuestions, h]

/-- Claim C1, witness for the amended theorem, at the empty-parse input. -/
theorem c1_zero_questions_witness :
    openaiGenerateQuestions (fun i => "q" ++ toString i) "gpt-4" 7
        (VendorOutcome.content ParsedResponse.invalid) =
      Except.error
        "OpenAI returned an invalid response format. Unable to parse questions from the response." ∧
    groqGenerateQuestions (fun i => "q" ++ toString i) "llama-3.3-70b-versatile" 7
        (VendorOutcome.content GroqParsed.noQuestionsField) =
      Except.error
        "Groq returned an invalid response format. Unable to parse questions from the response." :=
  ⟨c1_zero_questions_behavior.1 _ _ 7 ParsedResponse.invalid rfl,
   c1_zero_questions_behavior.2.1 _ _ 7 GroqParsed.noQuestionsField rfl⟩

/-- Claim C2, counterexample. A vendor-supplied `options` array is passed
through unvalidated: a question whose JSON carries one option and
`defaultOption: 5` is accepted by the OpenAI adapter with
`options.length = 1` and `defaultOption = 5 ∉ {0,1,2}`. -/
theorem c2_counterexample :
    openaiGenerateQuestions (fun i => "q" ++ toString i) "gpt-4" 10
        (VendorOutcome.content (ParsedResponse.questions
          [{ text := "T", options := some ["A"], defaultOption := some 5 }])) =
      Except.ok
        [{ id := "q0", text := "T", order := 0, category := "clarity", impact := "medium",
           explanation := none, options := ["A"], defaultOption := 5 }] ∧
    ([("A" : String)].length = 3) = False ∧ ((5 : Int) ≤ 2) = False := by
  refine ⟨rfl, by simp, by simp⟩

/-- Claim C2, amended. Fallback questions and regex-recovered questions
always have exactly 3 options with `defaultOption = 1`; a question
parsed from vendor JSON gets the 3-option default and `defaultOption 1`
only when the vendor omitted those fields — vendor-supplied values are
passed through unvalidated. -/
theorem c2_question_shape :
    (∀ (mkId : Nat → String) (q : Question), q ∈ generateFallbackQuestions mkId →
        q.options.length = 3 ∧ q.defaultOption = 1) ∧
    (∀ (mkId : Nat → String) (ts : List String) (q : Question), q ∈ tryFallbackParsing mkId ts →
        q.options.length = 3 ∧ q.defaultOption = 1) ∧
    (∀ (mkId : Nat → String) (i : Nat) (rq : RawQuestion),
        rq.options = none → rq.defaultOption = none →
        (normalizeQuestion mkId i rq).options.length = 3 ∧
          (normalizeQuestion mkId i rq).defaultOption = 1) := by
  refine ⟨?_, ?_, ?_⟩
  · intro mkId q hq
    simp only [generateFallbackQuestions, List.mem_cons, List.not_mem_nil, or_false] at hq
    rcases hq with rfl | rfl | rfl | rfl | rfl
    · exact ⟨rfl, rfl⟩
    · exact ⟨rfl, rfl⟩
    · exact ⟨rfl, rfl⟩
    · exact ⟨rfl, rfl⟩
    · exact ⟨rfl, rfl⟩
  · intro mkId ts q hq
    obtain ⟨j, x, _, rfl⟩ := mem_mapWithIndex hq
    exact ⟨rfl, rfl⟩
  · intro mkId i rq h1 h2
    simp [normalizeQuestion, jsOrList, jsOrInt, h1, h2]

/-- Claim C2, witness for the amended theorem. -/
theorem c2_question_shape_witness :
    (normalizeQuestion (fun i => "q" ++ toString i) 0 { text := "T" }).options.length = 3 ∧
      (normalizeQuestion (fun i => "q" ++ toString i) 0 { text := "T" }).defaultOption = 1 :=
  c2_question_shape.2.2 (fun i => "q" ++ toString i) 0 { text := "T" } rfl rfl

/-- Claim C8, counterexample. With all three vendor keys configured, the
factory still registers only OpenAI and Anthropic: the Groq adapter is
absent from the registry even though `GROQ_API_KEY` is present. -/
theorem c8_counterexample :
    truthy (Env.mk (some "sk-1") (some "sk-2") (some "gsk-3")).groqApiKey = true ∧
    initializeProviders
        (buildLlmProvidersConfig (Env.mk (some "sk-1") (some "sk-2") (some "gsk-3"))) =
      ["openai", "anthropic"] ∧
    "groq" ∉
      initializeProviders
        (buildLlmProvidersConfig (Env.mk (some "sk-1") (some "sk-2") (some "gsk-3"))) := by
  refine ⟨by decide, by decide, by decide⟩

/-- Claim C8, amended. At startup the registry registers the OpenAI
adapter iff `OPENAI_API_KEY` is configured and the Anthropic adapter iff
`ANTHROPIC_API_KEY` is configured — a missing credential simply skips
the adapter, it is not an error — but the Groq adapter is never
registered by `initializeProviders`, regardless of `GROQ_API_KEY`. -/
theorem c8_registration :
    ∀ (e : Env),
      (("openai" ∈ initializeProviders (buildLlmProvidersConfig e)) ↔
        truthy e.openaiApiKey = true) ∧
      (("anthropic" ∈ initializeProviders (buildLlmProvidersConfig e)) ↔
        truthy e.anthropicApiKey = true) ∧
      "groq" ∉ initializeProviders (buildLlmProvidersConfig e) := by
  intro e
  obtain ⟨o, a, g⟩ := e
  have ho : truthy (buildLlmProvidersConfig (Env.mk o a g)).openai = truthy o := by
    cases o with
    | none => rfl
    | some s =>
      by_cases hs : s = "" <;> simp [buildLlmProvidersConfig, truthy, hs]
  have ha : truthy (buildLlmProvidersConfig (Env.mk o a g)).anthropic = truthy a := by
    cases a with
    | none => rfl
    | some s =>
      by_cases hs : s = "" <;> simp [buildLlmProvidersConfig, truthy, hs]
  refine ⟨?_, ?_, ?_⟩
  · unfold initializeProviders
    rw [ho]
    cases hto : truthy o <;> cases hta : truthy (buildLlmProvidersConfig (Env.mk o a g)).anthropic <;>
      simp
  · unfold initializeProviders
    rw [ha]
    cases hto : truthy (buildLlmProvidersConfig (Env.mk o a g)).openai <;> cases hta : truthy a <;>
      simp
  · unfold initializeProviders
    cases hto : truthy (buildLlmProvidersConfig (Env.mk o a g)).openai <;>
      cases hta : truthy (buildLlmProvidersConfig (Env.mk o a g)).anthropic <;>
        simp

/-- Claim C10. A vendor-chosen `defaultOption` of `0` (or an omitted one —
both falsy in `q.defaultOption || 1`) is normalized to `1`; no question
parsed from vendor JSON ever carries `defaultOption = 0`. -/
theorem c10_default_option_zero_remapped :
    (∀ (mkId : Nat → String) (i : Nat) (q : RawQuestion),
        q.defaultOption = some 0 ∨ q.defaultOption = none →
        (normalizeQuestion mkId i q).defaultOption = 1) ∧
    (∀ (mkId : Nat → String) (i : Nat) (q : RawQuestion),
        (normalizeQuestion mkId i q).defaultOption ≠ 0) := by
  constructor
  · rintro mkId i q (h | h) <;> simp [normalizeQuestion, jsOrInt, h]
  · intro mkId i q
    simp only [normalizeQuestion, jsOrInt]
    cases h : q.defaultOption with
    | none => simp
    | some n =>
      by_cases hn : n = 0 <;> simp [hn]

/-- Claim C10, witness: the vendor default `0` becomes `1`. -/
theorem c10_default_option_witness :
    (normalizeQuestion (fun i => "q" ++ toString i) 0
      { text := "T", defaultOption := some 0 }).defaultOption = 1 :=
  c10_default_option_zero_remapped.1 (fun i => "q" ++ toString i) 0
    { text := "T", defaultOption := some 0 } (Or.inl rfl)

/-- Claim C3, counterexample. The claim says every adapter's refinement
transcript renders a question without a matching answer as
`Not answered`.  The Anthropic transcript instead omits such questions
entirely: with one unanswered question the conversation it sends is
byte-for-byte the conversation for an empty question list — while the
shared formatter (used by OpenAI and Groq) does render `Not answered`. -/
theorem c3_counterexample :
    buildRefinementConversation "SYS" "P"
        [{ id := "q1", text := "What tone?", order := 0, category := "clarity",
           impact := "high", explanation := none,
           options := ["Yes", "Maybe", "No"], defaultOption := 1 }] [] =
      buildRefinementConversation "SYS" "P" [] [] ∧
    formatQuestionsForPrompt
        [{ id := "q1", text := "What tone?", order := 0, category := "clarity",
           impact := "high", explanation := none,
           options := ["Yes", "Maybe", "No"], defaultOption := 1 }] [] =
      "Q: What tone?\nA: Not answered" :=
  ⟨rfl, rfl⟩

/-- Claim C3, amended. The transcript of `formatQuestionsForPrompt` (used
by the OpenAI and Groq `refinePrompt`) pairs every question of the set
with its answer — `Not answered` when none matches, `Yes`/`No` for a
boolean, the string verbatim — so unanswered questions still appear; the
Anthropic `buildRefinementConversation`, however, contributes nothing
for a question with no matching answer (the question is omitted). -/
theorem c3_transcript_rendering :
    (∀ (questions : List Question) (answers : List Answer),
        formatQuestionsForPrompt questions answers =
          String.intercalate "\n\n" (questions.map (transcriptLine answers))) ∧
    (∀ (answers : List Answer) (q : Question),
        (∀ a ∈ answers, a.questionId ≠ q.id) →
        transcriptLine answers q = "Q: " ++ q.text ++ "\nA: " ++ "Not answered") ∧
    (∀ (answers : List Answer) (q : Question) (a : Answer) (b : Bool),
        answers.find? (fun x => x.questionId == q.id) = some a →
        a.response = AnswerResponse.bool b →
        transcriptLine answers q =
          "Q: " ++ q.text ++ "\nA: " ++ (if b then "Yes" else "No")) ∧
    (∀ (answers : List Answer) (q : Question) (a : Answer) (s : String),
        answers.find? (fun x => x.questionId == q.id) = some a →
        a.response = AnswerResponse.str s →
        transcriptLine answers q = "Q: " ++ q.text ++ "\nA: " ++ s) ∧
    (∀ (sys p : String) (answers : List Answer) (q : Question)
        (qs1 qs2 : List Question),
        (∀ a ∈ answers, a.questionId ≠ q.id) →
        buildRefinementConversation sys p (qs1 ++ q :: qs2) answers =
          buildRefinementConversation sys p (qs1 ++ qs2) answers) := by
  refine ⟨fun _ _ => rfl, ?_, ?_, ?_, ?_⟩
  · intro answers q h
    have hf : answers.find? (fun x => x.questionId == q.id) = none := by
      rw [List.find?_eq_none]
      intro a ha
      simpa using h a ha
    simp [transcriptLine, hf, renderAnswerText]
  · intro answers q a b hfind hresp
    simp [transcriptLine, hfind, renderAnswerText, hresp]
  · intro answers q a s hfind hresp
    simp [transcriptLine, hfind, renderAnswerText, hresp]
  · intro sys p answers q qs1 qs2 h
    have hget : answerMapGet answers q.id = none := by
      unfold answerMapGet
      rw [List.find?_eq_none.mpr]
      · rfl
      · intro a ha
        simpa using h a (List.mem_reverse.mp ha)
    unfold buildRefinementConversation
    rw [List.map_append, List.map_append, List.map_cons, joinLines_append, joinLines_append]
    have hline : anthropicAnswerLine answers q = "" := by
      simp [anthropicAnswerLine, hget]
    rw [hline]
    simp [joinLines]

/-- Claim C3, witness for the amended theorem: an unanswered question still
renders, as `Not answered`, in the shared formatter. -/
theorem c3_transcript_witness :
    transcriptLine []
        { id := "q1", text := "What tone?", order := 0, category := "clarity",
          impact := "high", explanation := none,
          options := ["Yes", "Maybe", "No"], defaultOption := 1 } =
      "Q: " ++ "What tone?" ++ "\nA: " ++ "Not answered" :=
  c3_transcript_rendering.2.1 []
    { id := "q1", text := "What tone?", order := 0, category := "clarity",
      impact := "high", explanation := none,
      options := ["Yes", "Maybe", "No"], defaultOption := 1 }
    (by intro a ha; simp at ha)

/-- Claim C4. A `createSession` call with a registered provider whose
question generation succeeds builds the session in `draft`, flips it to
`refining` exactly once before returning, and returns that `refining`
session with its question set populated and persisted in storage. -/
theorem c4_create_session_refining :
    ∀ (registered : List String) (qs : List Question) (newId : String)
      (now timeoutHours : Nat) (st : Storage)
      (originalPrompt llmProvider : String) (model : Option String),
      registered.contains llmProvider = true →
      (createNewSession newId now timeoutHours originalPrompt llmProvider model).status =
          SessionStatus.draft ∧
      createSession registered (Except.ok qs) newId now timeoutHours st
          originalPrompt llmProvider model =
        (storageSet st newId
            { createNewSession newId now timeoutHours originalPrompt llmProvider model with
                questions := qs, status := SessionStatus.refining },
          Except.ok
            ({ createNewSession newId now timeoutHours originalPrompt llmProvider model with
                questions := qs, status := SessionStatus.refining }, qs)) ∧
      lookupSession
          (createSession registered (Except.ok qs) newId now timeoutHours st
            originalPrompt llmProvider model).1 newId =
        some
          { createNewSession newId now timeoutHours originalPrompt llmProvider model with
              questions := qs, status := SessionStatus.refining } := by
  intro registered qs newId now timeoutHours st originalPrompt llmProvider model h
  have hm : llmProvider ∈ registered := by simpa using h
  refine ⟨rfl, ?_, ?_⟩
  · simp [createSession, hm, createNewSession]
  · have hlook := lookupSession_storageSet_self st newId
      { createNewSession newId now timeoutHours originalPrompt llmProvider model with
          questions := qs, status := SessionStatus.refining }
    simpa [createSession, hm, createNewSession] using hlook

/-- Claim C4, witness. -/
theorem c4_create_session_witness :
    createSession ["openai"] (Except.ok []) "s1" 0 24 [] "P" "openai" none =
      (storageSet []
          "s1"
          { createNewSession "s1" 0 24 "P" "openai" none with
              questions := [], status := SessionStatus.refining },
        Except.ok
          ({ createNewSession "s1" 0 24 "P" "openai" none with
              questions := [], status := SessionStatus.refining }, [])) :=
  (c4_create_session_refining ["openai"] [] "s1" 0 24 [] "P" "openai" none rfl).2.1

/-- Claim C5. A `createSession` call with an unregistered provider fails
with the provider-unavailable error and leaves storage unchanged; the
same holds when question generation fails before the session is
persisted. -/
theorem c5_create_session_errors :
    ∀ (registered : List String) (genResult : Except String (List Question))
      (newId : String) (now timeoutHours : Nat) (st : Storage)
      (originalPrompt llmProvider : String) (model : Option String),
      (registered.contains llmProvider = false →
        createSession registered genResult newId now timeoutHours st
            originalPrompt llmProvider model =
          (st, Except.error ("LLM provider '" ++ llmProvider ++ "' is not available"))) ∧
      (∀ e, genResult = Except.error e →
        createSession registered genResult newId now timeoutHours st
            originalPrompt llmProvider model =
          (st, Except.error e) ∨
        createSession registered genResult newId now timeoutHours st
            originalPrompt llmProvider model =
          (st, Except.error ("LLM provider '" ++ llmProvider ++ "' is not available"))) := by
  intro registered genResult newId now timeoutHours st originalPrompt llmProvider model
  constructor
  · intro h
    have hm : llmProvider ∉ registered := by simpa using h
    simp [createSession, hm]
  · intro e he
    subst he
    by_cases hm : llmProvider ∈ registered
    · left
      simp [createSession, hm]
    · right
      simp [createSession, hm]

/-- Claim C5, witness. -/
theorem c5_create_session_errors_witness :
    createSession ["openai", "anthropic"] (Except.ok []) "s1" 0 24 [] "P" "nonexistent" none =
      ([], Except.error "LLM provider 'nonexistent' is not available") ∧
    (createSession ["openai"] (Except.error "boom") "s1" 0 24 [] "P" "openai" none =
        ([], Except.error "boom") ∨
      createSession ["openai"] (Except.error "boom") "s1" 0 24 [] "P" "openai" none =
        ([], Except.error "LLM provider 'openai' is not available")) :=
  ⟨(c5_create_session_errors ["openai", "anthropic"] (Except.ok []) "s1" 0 24 [] "P"
      "nonexistent" none).1 (by decide),
   (c5_create_session_errors ["openai"] (Except.error "boom") "s1" 0 24 [] "P"
      "openai" none).2 "boom" rfl⟩

/-- Claim C7. Reading a session whose `expiresAt` lies strictly before the
current time returns `none`, exactly as a read of an id that was never
created, and as a side effect the expired entry is deleted from
storage. -/
theorem c7_expired_read :
    ∀ (st : Storage) (now : Nat) (sid : String) (s : RefinementSession),
      lookupSession st sid = some s → now > s.expiresAt →
      getSession st now sid = (deleteSession st sid, none) ∧
      lookupSession (deleteSession st sid) sid = none ∧
      (∀ missing : String, lookupSession st missing = none →
        getSession st now missing = (st, none)) := by
  intro st now sid s h he
  refine ⟨?_, lookupSession_deleteSession_self st sid, ?_⟩
  · unfold getSession
    rw [h]
    simp only [if_pos he]
  · intro missing hm
    unfold getSession
    rw [hm]

/-- Claim C7, witness: a concrete expired session is reported absent and
evicted by the read. -/
theorem c7_expired_read_witness :
    getSession
        [("s1",
          { id := "s1", originalPrompt := "P", refinedPrompt := "", status := SessionStatus.refining,
            createdAt := 0, updatedAt := 0, llmProvider := "openai", model := none,
            questions := [], answers := [], expiresAt := 100 })] 101 "s1" =
      (deleteSession
        [("s1",
          { id := "s1", originalPrompt := "P", refinedPrompt := "", status := SessionStatus.refining,
            createdAt := 0, updatedAt := 0, llmProvider := "openai", model := none,
            questions := [], answers := [], expiresAt := 100 })] "s1", none) :=
  (c7_expired_read _ 101 "s1"
    { id := "s1", originalPrompt := "P", refinedPrompt := "", status := SessionStatus.refining,
      createdAt := 0, updatedAt := 0, llmProvider := "openai", model := none,
      questions := [], answers := [], expiresAt := 100 } (by decide) (by decide)).1

/-- Claim C6. Over any sequence of `answerQuestion` calls the per-session
answer lists keep distinct `questionId`s, and a call for an
already-answered question replaces the existing entry in place (the
answer list keeps its length) rather than appending a duplicate. -/
theorem c6_answers_unique :
    (∀ (st : Storage) (calls : List AnswerCall),
        storageAnswersNodup st → storageAnswersNodup (runAnswerCalls st calls)) ∧
    (∀ (st : Storage) (now : Nat) (fid sid qid : String) (resp : AnswerResponse)
        (s : RefinementSession) (q0 : Question) (b : Answer),
        lookupSession st sid = some s → ¬ now > s.expiresAt →
        s.questions.find? (fun q => q.id == qid) = some q0 →
        b ∈ s.answers → b.questionId = qid →
        answerQuestion st now fid sid qid resp =
          (storageSet st sid
              { s with
                  answers := upsertAnswer s.answers
                    { id := fid, questionId := qid, response := resp, timestamp := now }
                  updatedAt := now },
            Except.ok { id := fid, questionId := qid, response := resp, timestamp := now }) ∧
        (upsertAnswer s.answers
            { id := fid, questionId := qid, response := resp, timestamp := now }).length =
          s.answers.length) := by
  constructor
  · intro st calls h
    induction calls generalizing st with
    | nil => simpa [runAnswerCalls] using h
    | cons c rest ih =>
      have h1 := storageAnswersNodup_answerQuestion st c.now c.freshId c.sessionId
        c.questionId c.response h
      simpa [runAnswerCalls] using ih _ h1
  · intro st now fid sid qid resp s q0 b hs hexp hq hb hbq
    exact ⟨answerQuestion_success st now fid sid qid resp s q0 hs hexp hq,
      length_upsertAnswer_of_mem s.answers _ b hb hbq⟩

/-- Claim C6, witness: a concrete two-call run (re-answering the same
question) keeps the invariant, and the re-answer keeps the list length. -/
theorem c6_answers_unique_witness :
    storageAnswersNodup
      (runAnswerCalls
        [("s1",
          { id := "s1", originalPrompt := "P", refinedPrompt := "",
            status := SessionStatus.refining, createdAt := 0, updatedAt := 0,
            llmProvider := "openai", model := none,
            questions :=
              [{ id := "q1", text := "T", order := 0, category := "clarity",
                 impact := "high", explanation := none,
                 options := ["Yes", "Maybe", "No"], defaultOption := 1 }],
            answers := [{ id := "a0", questionId := "q1",
                          response := AnswerResponse.str "No", timestamp := 10 }],
            expiresAt := 1000 })]
        [{ now := 50, freshId := "a1", sessionId := "s1", questionId := "q1",
           response := AnswerResponse.str "Yes" },
         { now := 60, freshId := "a2", sessionId := "s1", questionId := "q1",
           response := AnswerResponse.bool true }]) ∧
    (upsertAnswer
        [({ id := "a0", questionId := "q1", response := AnswerResponse.str "No",
            timestamp := 10 } : Answer)]
        ({ id := "a1", questionId := "q1", response := AnswerResponse.str "Yes",
           timestamp := 50 } : Answer)).length =
      [({ id := "a0", questionId := "q1", response := AnswerResponse.str "No",
          timestamp := 10 } : Answer)].length :=
  ⟨c6_answers_unique.1 _ _ (by decide),
   (c6_answers_unique.2
      ([("s1",
        { id := "s1", originalPrompt := "P", refinedPrompt := "",
          status := SessionStatus.refining, createdAt := 0, updatedAt := 0,
          llmProvider := "openai", model := none,
          questions :=
            [{ id := "q1", text := "T", order := 0, category := "clarity",
               impact := "high", explanation := none,
               options := ["Yes", "Maybe", "No"], defaultOption := 1 }],
          answers := [{ id := "a0", questionId := "q1",
                        response := AnswerResponse.str "No", timestamp := 10 }],
          expiresAt := 1000 })] : Storage)
      50 "a1" "s1" "q1" (AnswerResponse.str "Yes")
      { id := "s1", originalPrompt := "P", refinedPrompt := "",
        status := SessionStatus.refining, createdAt := 0, updatedAt := 0,
        llmProvider := "openai", model := none,
        questions :=
          [{ id := "q1", text := "T", order := 0, category := "clarity",
             impact := "high", explanation := none,
             options := ["Yes", "Maybe", "No"], defaultOption := 1 }],
        answers := [{ id := "a0", questionId := "q1",
                      response := AnswerResponse.str "No", timestamp := 10 }],
        expiresAt := 1000 }
      { id := "q1", text := "T", order := 0, category := "clarity",
        impact := "high", explanation := none,
        options := ["Yes", "Maybe", "No"], defaultOption := 1 }
      { id := "a0", questionId := "q1", response := AnswerResponse.str "No", timestamp := 10 }
      (by decide) (by decide) (by decide) (by decide) (by decide)).2⟩

/-- Claim C9, counterexample. Calling `answerQuestion` twice with the same
`(sessionId, questionId, response)` does not leave the answer set
unchanged: the second call replaces the stored answer with one carrying
a fresh id and timestamp, so the session state after the second call
differs from the state after the first. -/
theorem c9_counterexample :
    (lookupSession
        ((answerQuestion
          ((answerQuestion
            [("s1",
              { id := "s1", originalPrompt := "P", refinedPrompt := "",
                status := SessionStatus.refining, createdAt := 0, updatedAt := 0,
                llmProvider := "openai", model := none,
                questions :=
                  [{ id := "q1", text := "T", order := 0, category := "clarity",
                     impact := "high", explanation := none,
                     options := ["Yes", "Maybe", "No"], defaultOption := 1 }],
                answers := [], expiresAt := 1000 })]
            100 "a1" "s1" "q1" (AnswerResponse.str "Yes")).1)
          200 "a2" "s1" "q1" (AnswerResponse.str "Yes")).1)
        "s1" ≠
      lookupSession
        ((answerQuestion
          [("s1",
            { id := "s1", originalPrompt := "P", refinedPrompt := "",
              status := SessionStatus.refining, createdAt := 0, updatedAt := 0,
              llmProvider := "openai", model := none,
              questions :=
                [{ id := "q1", text := "T", order := 0, category := "clarity",
                   impact := "high", explanation := none,
                   options := ["Yes", "Maybe", "No"], defaultOption := 1 }],
              answers := [], expiresAt := 1000 })]
          100 "a1" "s1" "q1" (AnswerResponse.str "Yes")).1)
        "s1") ∧
    ((lookupSession
        ((answerQuestion
          ((answerQuestion
            [("s1",
              { id := "s1", originalPrompt := "P", refinedPrompt := "",
                status := SessionStatus.refining, createdAt := 0, updatedAt := 0,
                llmProvider := "openai", model := none,
                questions :=
                  [{ id := "q1", text := "T", order := 0, category := "clarity",
                     impact := "high", explanation := none,
                     options := ["Yes", "Maybe", "No"], defaultOption := 1 }],
                answers := [], expiresAt := 1000 })]
            100 "a1" "s1" "q1" (AnswerResponse.str "Yes")).1)
          200 "a2" "s1" "q1" (AnswerResponse.str "Yes")).1)
        "s1").map (fun s => s.answers) =
      some [{ id := "a2", questionId := "q1", response := AnswerResponse.str "Yes",
              timestamp := 200 }]) := by
  exact ⟨by decide, by decide⟩

/-- Claim C9, amended. Calling `answerQuestion` twice with the same
`(sessionId, questionId, response)` leaves the answer set unchanged up
to the regenerated answer id and timestamp: the second call replaces the
entry written by the first, preserving the list of
`(questionId, response)` pairs and the list length, but stores a fresh
`uuidv4` id and a fresh timestamp. -/
theorem c9_repeat_answer_idempotent_up_to_metadata :
    ∀ (st : Storage) (now1 now2 : Nat) (f1 f2 sid qid : String)
      (resp : AnswerResponse) (s : RefinementSession) (q0 : Question),
      lookupSession st sid = some s →
      s.questions.find? (fun q => q.id == qid) = some q0 →
      ¬ now1 > s.expiresAt → ¬ now2 > s.expiresAt →
      ∃ s1 s2,
        lookupSession (answerQuestion st now1 f1 sid qid resp).1 sid = some s1 ∧
        lookupSession
            (answerQuestion (answerQuestion st now1 f1 sid qid resp).1
              now2 f2 sid qid resp).1 sid = some s2 ∧
        s2.answers.map (fun a => (a.questionId, a.response)) =
          s1.answers.map (fun a => (a.questionId, a.response)) ∧
        s2.answers.length = s1.answers.length := by
  intro st now1 now2 f1 f2 sid qid resp s q0 hs hq hexp1 hexp2
  set a1 : Answer := { id := f1, questionId := qid, response := resp, timestamp := now1 } with ha1
  set a2 : Answer := { id := f2, questionId := qid, response := resp, timestamp := now2 } with ha2
  set s1 : RefinementSession :=
    { s with answers := upsertAnswer s.answers a1, updatedAt := now1 } with hs1
  have hcall1 := answerQuestion_success st now1 f1 sid qid resp s q0 hs hexp1 hq
  have hst1 : (answerQuestion st now1 f1 sid qid resp).1 = storageSet st sid s1 := by
    rw [hcall1]
  have hlook1 : lookupSession (storageSet st sid s1) sid = some s1 :=
    lookupSession_storageSet_self st sid s1
  have hcall2 := answerQuestion_success (storageSet st sid s1) now2 f2 sid qid resp s1 q0
    hlook1 hexp2 hq
  set s2 : RefinementSession :=
    { s1 with answers := upsertAnswer s1.answers a2, updatedAt := now2 } with hs2
  refine ⟨s1, s2, ?_, ?_, ?_, ?_⟩
  · rw [hst1]
    exact hlook1
  · rw [hst1, hcall2]
    exact lookupSession_storageSet_self (storageSet st sid s1) sid s2
  · have hfind : s1.answers.find? (fun x => x.questionId == a2.questionId) = some a1 :=
      find?_upsertAnswer s.answers a1
    exact map_pair_upsertAnswer s1.answers a2 a1 hfind rfl
  · have hfind : s1.answers.find? (fun x => x.questionId == a2.questionId) = some a1 :=
      find?_upsertAnswer s.answers a1
    exact length_upsertAnswer_of_mem s1.answers a2 a1
      (List.mem_of_find?_eq_some hfind) rfl

/-- Claim C9, witness for the amended theorem. -/
theorem c9_repeat_answer_witness :
    ∃ s1 s2,
      lookupSession
          (answerQuestion
            [("s1",
              { id := "s1", originalPrompt := "P", refinedPrompt := "",
                status := SessionStatus.refining, createdAt := 0, updatedAt := 0,
                llmProvider := "openai", model := none,
                questions :=
                  [{ id := "q1", text := "T", order := 0, category := "clarity",
                     impact := "high", explanation := none,
                     options := ["Yes", "Maybe", "No"], defaultOption := 1 }],
                answers := [], expiresAt := 1000 })]
            100 "a1" "s1" "q1" (AnswerResponse.str "Yes")).1 "s1" = some s1 ∧
      lookupSession
          (answerQuestion
            (answerQuestion
              [("s1",
                { id := "s1", originalPrompt := "P", refinedPrompt := "",
                  status := SessionStatus.refining, createdAt := 0, updatedAt := 0,
                  llmProvider := "openai", model := none,
                  questions :=
                    [{ id := "q1", text := "T", order := 0, category := "clarity",
                       impact := "high", explanation := none,
                       options := ["Yes", "Maybe", "No"], defaultOption := 1 }],
                  answers := [], expiresAt := 1000 })]
              100 "a1" "s1" "q1" (AnswerResponse.str "Yes")).1
            200 "a2" "s1" "q1" (AnswerResponse.str "Yes")).1 "s1" = some s2 ∧
      s2.answers.map (fun a => (a.questionId, a.response)) =
        s1.answers.map (fun a => (a.questionId, a.response)) ∧
      s2.answers.length = s1.answers.length :=
  c9_repeat_answer_idempotent_up_to_metadata
    [("s1",
      { id := "s1", originalPrompt := "P", refinedPrompt := "",
        status := SessionStatus.refining, createdAt := 0, updatedAt := 0,
        llmProvider := "openai", model := none,
        questions :=
          [{ id := "q1", text := "T", order := 0, category := "clarity",
             impact := "high", explanation := none,
             options := ["Yes", "Maybe", "No"], defaultOption := 1 }],
        answers := [], expiresAt := 1000 })]
    100 200 "a1" "a2" "s1" "q1" (AnswerResponse.str "Yes")
    { id := "s1", originalPrompt := "P", refinedPrompt := "",
      status := SessionStatus.refining, createdAt := 0, updatedAt := 0,
      llmProvider := "openai", model := none,
      questions :=
        [{ id := "q1", text := "T", order := 0, category := "clarity",
           impact := "high", explanation := none,
           options := ["Yes", "Maybe", "No"], defaultOption := 1 }],
      answers := [], expiresAt := 1000 }
    { id := "q1", text := "T", order := 0, category := "clarity",
      impact := "high", explanation := none,
      options := ["Yes", "Maybe", "No"], defaultOption := 1 }
    (by decide) (by decide) (by decide) (by decide)
